import Mathlib

/-!
Verification development for the astro-medical system
(src/app.py and src/astro_step4_ultimate_api_fixed.py).

The deterministic core is embedded on exact rationals: Python float
arithmetic is modelled by arithmetic on the rationals, Python floor
division by the integer floor of the rational quotient, the Python
modulo operator (with positive modulus) by its defining identity
x mod y = x - y * floor(x / y), and the Python round builtin by
round-half-to-even on rationals.  The ephemeris provider
(swisseph / pyephem) and the julian-day conversion are abstracted as
function parameters; provider failure is modelled by an Option result.
Dictionaries are embedded as association lists, dict.get with a default
as lookup followed by getD.
-/

/-- Python floor division x // y on numbers, as the floor of the exact
rational quotient. -/
def pyfloordiv (x y : ℚ) : ℤ := ⌊x / y⌋

/-- Python modulo x % y for a positive modulus y:
x - y * (x // y), which always lies in the interval from 0 to y. -/
def pymod (x y : ℚ) : ℚ := x - y * (pyfloordiv x y : ℚ)

/-- Round half to even, the tie-breaking rule of the Python round
builtin, on an exact rational. -/
def rhe (x : ℚ) : ℤ :=
  if x - ⌊x⌋ < 1/2 then ⌊x⌋
  else if 1/2 < x - ⌊x⌋ then ⌊x⌋ + 1
  else if ⌊x⌋ % 2 = 0 then ⌊x⌋ else ⌊x⌋ + 1

/-- Python round(x, n) modelled exactly on rationals. -/
def pyround (x : ℚ) (n : ℕ) : ℚ := (rhe (x * 10 ^ n) : ℚ) / 10 ^ n

/-! ## src/app.py -/

/-- The sign list of get_zodiac_sign in src/app.py, lines 125-126. -/
def zodiac_signs : List String :=
  ["Aries", "Taurus", "Gemini", "Cancer", "Leo", "Virgo",
   "Libra", "Scorpio", "Sagittarius", "Capricorn", "Aquarius", "Pisces"]

/-- get_zodiac_sign from src/app.py, line 127:
signs[int(longitude // 30) % 12].  The getD default is inert because
the index is always below 12 (see claim_C1). -/
def get_zodiac_sign (longitude : ℚ) : String :=
  zodiac_signs.getD ((pyfloordiv longitude 30) % 12).toNat "Aries"

/-- The sign-to-element dictionary of get_element in src/app.py,
lines 131-136 (insertion order of the source literal). -/
def elements : List (String × String) :=
  [("Aries", "Fire"), ("Leo", "Fire"), ("Sagittarius", "Fire"),
   ("Taurus", "Earth"), ("Virgo", "Earth"), ("Capricorn", "Earth"),
   ("Gemini", "Air"), ("Libra", "Air"), ("Aquarius", "Air"),
   ("Cancer", "Water"), ("Scorpio", "Water"), ("Pisces", "Water")]

/-- get_element from src/app.py, line 137: elements.get(sign, Fire). -/
def get_element (sign : String) : String :=
  (elements.lookup sign).getD "Fire"

/-- The combinations dictionary of get_sixteen_archetype in src/app.py,
lines 141-158; keys are (sun element, moon element). -/
def combinations : List ((String × String) × String) :=
  [(("Fire", "Fire"), "Warrior"), (("Fire", "Earth"), "Builder"),
   (("Fire", "Air"), "Catalyst"), (("Fire", "Water"), "Intuitive"),
   (("Earth", "Fire"), "Pioneer"), (("Earth", "Earth"), "Guardian"),
   (("Earth", "Air"), "Analyst"), (("Earth", "Water"), "Nurturer"),
   (("Air", "Fire"), "Innovator"), (("Air", "Earth"), "Organizer"),
   (("Air", "Air"), "Communicator"), (("Air", "Water"), "Harmonizer"),
   (("Water", "Fire"), "Transformer"), (("Water", "Earth"), "Stabilizer"),
   (("Water", "Air"), "Mediator"), (("Water", "Water"), "Mystic")]

/-- get_sixteen_archetype from src/app.py, line 159:
combinations.get((sun_element, moon_element), Unknown). -/
def get_sixteen_archetype (sun_element moon_element : String) : String :=
  (combinations.lookup (sun_element, moon_element)).getD "Unknown"

/-- Result record of calculate_planetary_positions in src/app.py. -/
structure AstroData where
  sun_longitude : ℚ
  moon_longitude : ℚ
  sun_sign : String
  moon_sign : String
  sun_element : String
  moon_element : String
  sun_degree : ℚ
  moon_degree : ℚ
  deriving DecidableEq

/-- calculate_planetary_positions from src/app.py, lines 81-121.
The pyephem provider is abstracted: some (sun, moon) ecliptic
longitudes in degrees on success, none when the library raises.  On
success the function classifies both longitudes (lines 99-108); on any
exception it returns the hard-coded fallback record of lines 112-121,
substituting longitude 0, sign Aries, element Fire, degree 0. -/
def calculate_planetary_positions (provider : Option (ℚ × ℚ)) : AstroData :=
  match provider with
  | some (sun_longitude, moon_longitude) =>
    { sun_longitude := sun_longitude
      moon_longitude := moon_longitude
      sun_sign := get_zodiac_sign sun_longitude
      moon_sign := get_zodiac_sign moon_longitude
      sun_element := get_element (get_zodiac_sign sun_longitude)
      moon_element := get_element (get_zodiac_sign moon_longitude)
      sun_degree := pymod sun_longitude 30
      moon_degree := pymod moon_longitude 30 }
  | none =>
    { sun_longitude := 0
      moon_longitude := 0
      sun_sign := "Aries"
      moon_sign := "Aries"
      sun_element := "Fire"
      moon_element := "Fire"
      sun_degree := 0
      moon_degree := 0 }

/-- PREFECTURES from src/app.py, lines 31-79: prefecture name to
(latitude, longitude) of the prefectural capital. -/
def PREFECTURES : List (String × ℚ × ℚ) :=
  [("北海道", 43.0642, 141.3469), ("青森県", 40.8244, 140.7400),
   ("岩手県", 39.7036, 141.1527), ("宮城県", 38.2682, 140.8721),
   ("秋田県", 39.7186, 140.1022), ("山形県", 38.2404, 140.3633),
   ("福島県", 37.7503, 140.4677), ("茨城県", 36.3418, 140.4468),
   ("栃木県", 36.5658, 139.8836), ("群馬県", 36.3906, 139.0608),
   ("埼玉県", 35.8617, 139.6455), ("千葉県", 35.6074, 140.1065),
   ("東京都", 35.6762, 139.6503), ("神奈川県", 35.4478, 139.6425),
   ("新潟県", 37.9026, 139.0232), ("富山県", 36.6959, 137.2137),
   ("石川県", 36.5946, 136.6256), ("福井県", 36.0652, 136.2216),
   ("山梨県", 35.6642, 138.5681), ("長野県", 36.6513, 138.1809),
   ("岐阜県", 35.3912, 136.7223), ("静岡県", 34.9756, 138.3827),
   ("愛知県", 35.1802, 136.9066), ("三重県", 34.7302, 136.5086),
   ("滋賀県", 35.0045, 135.8686), ("京都府", 35.0211, 135.7556),
   ("大阪府", 34.6937, 135.5023), ("兵庫県", 34.6913, 135.1830),
   ("奈良県", 34.6851, 135.8048), ("和歌山県", 34.2261, 135.1675),
   ("鳥取県", 35.5038, 134.2378), ("島根県", 35.4723, 133.0505),
   ("岡山県", 34.6618, 133.9346), ("広島県", 34.3963, 132.4596),
   ("山口県", 34.1861, 131.4707), ("徳島県", 34.0658, 134.5593),
   ("香川県", 34.3401, 134.0430), ("愛媛県", 33.8416, 132.7658),
   ("高知県", 33.5597, 133.5311), ("福岡県", 33.6064, 130.4181),
   ("佐賀県", 33.2494, 130.2989), ("長崎県", 32.7503, 129.8779),
   ("熊本県", 32.7898, 130.7417), ("大分県", 33.2382, 131.6126),
   ("宮崎県", 31.9077, 131.4202), ("鹿児島県", 31.5602, 130.5581),
   ("沖縄県", 26.2124, 127.6792)]

/-- Coordinate resolution of basic_diagnosis and detailed_diagnosis in
src/app.py, lines 384 and 422:
PREFECTURES.get(prefecture, (35.6762, 139.6503)), an unknown
prefecture silently falling back to the Tokyo coordinates. -/
def basic_diagnosis_coordinates (prefecture : String) : ℚ × ℚ :=
  (PREFECTURES.lookup prefecture).getD (35.6762, 139.6503)

/-! ## src/astro_step4_ultimate_api_fixed.py -/

/-- SIGN_ELEMENTS from src/astro_step4_ultimate_api_fixed.py, lines
164-177: sign name (Japanese and English) to element, where the
elements are the Japanese strings for Fire, Earth, Air, Water. -/
def SIGN_ELEMENTS : List (String × String) :=
  [("牡羊座", "火"), ("Aries", "火"), ("牡牛座", "地"), ("Taurus", "地"),
   ("双子座", "風"), ("Gemini", "風"), ("蟹座", "水"), ("Cancer", "水"),
   ("獅子座", "火"), ("Leo", "火"), ("乙女座", "地"), ("Virgo", "地"),
   ("天秤座", "風"), ("Libra", "風"), ("蠍座", "水"), ("Scorpio", "水"),
   ("射手座", "火"), ("Sagittarius", "火"), ("山羊座", "地"), ("Capricorn", "地"),
   ("水瓶座", "風"), ("Aquarius", "風"), ("魚座", "水"), ("Pisces", "水")]

/-- ARCHETYPE_DATABASE from src/astro_step4_ultimate_api_fixed.py,
lines 180-197: (sun element, moon element) to the archetype label,
with the elements written in Japanese (Fire = first, Earth = second,
Air = third, Water = fourth of the four kanji). -/
def ARCHETYPE_DATABASE : List ((String × String) × String) :=
  [(("火", "火"), "The Supernova（超新星）"), (("火", "地"), "The Magma（マグマ）"),
   (("火", "風"), "The Evangelist（伝道師）"), (("火", "水"), "The Geyser（間欠泉）"),
   (("地", "火"), "The Volcano（火山）"), (("地", "地"), "The Bedrock（岩盤）"),
   (("地", "風"), "The Garden（庭園）"), (("地", "水"), "The Spring（泉）"),
   (("風", "火"), "The Lightning（稲妻）"), (("風", "地"), "The Breeze（そよ風）"),
   (("風", "風"), "The Hurricane（ハリケーン）"), (("風", "水"), "The Mist（霧）"),
   (("水", "火"), "The Steam（蒸気）"), (("水", "地"), "The River（川）"),
   (("水", "風"), "The Rain（雨）"), (("水", "水"), "The Ocean（海）")]

/-- The sign list of get_sign_name_japanese in
src/astro_step4_ultimate_api_fixed.py, lines 201-204. -/
def japanese_zodiac_signs : List String :=
  ["牡羊座", "牡牛座", "双子座", "蟹座", "獅子座", "乙女座",
   "天秤座", "蠍座", "射手座", "山羊座", "水瓶座", "魚座"]

/-- get_sign_name_japanese from src/astro_step4_ultimate_api_fixed.py,
line 205: signs[sign_num] if 0 <= sign_num < 12 else the
unknown-sign marker. -/
def get_sign_name_japanese (sign_num : ℤ) : String :=
  if 0 ≤ sign_num ∧ sign_num < 12 then
    japanese_zodiac_signs.getD sign_num.toNat "未知の星座"
  else "未知の星座"

/-- One body-position record as built by calculate_planet_position.
The element field is an Option so that an input record lacking the
element key (dict.get with a default in the source) can be expressed;
records produced by calculate_planet_position always carry some
element. -/
structure PlanetPos where
  sign : String
  degree : ℚ
  longitude : ℚ
  element : Option String
  deriving DecidableEq

/-- The classification body of calculate_planet_position in
src/astro_step4_ultimate_api_fixed.py, lines 213-224: sign_num =
int(longitude // 30) with no reduction mod 12, degree_in_sign =
longitude % 30, element = SIGN_ELEMENTS.get(sign_name, unknown),
degree and longitude rounded to 2 decimal places in the response. -/
def classify_longitude (longitude : ℚ) : PlanetPos :=
  { sign := get_sign_name_japanese (pyfloordiv longitude 30)
    degree := pyround (pymod longitude 30) 2
    longitude := pyround longitude 2
    element :=
      some ((SIGN_ELEMENTS.lookup (get_sign_name_japanese (pyfloordiv longitude 30))).getD "不明") }

/-- calculate_planet_position from src/astro_step4_ultimate_api_fixed.py,
lines 207-227.  The swe.calc_ut call is abstracted by the calc_ut
parameter returning the ecliptic longitude in degrees, or none when
the library raises; in that case the source logs and returns None. -/
def calculate_planet_position (calc_ut : ℚ → ℕ → Option ℚ) (julian_day : ℚ)
    (planet_id : ℕ) : Option PlanetPos :=
  match calc_ut julian_day planet_id with
  | none => none
  | some longitude => some (classify_longitude longitude)

/-- Spec-side sign index: floor(longitude / 30) mod 12. -/
def signIndex (longitude : ℚ) : ℤ := (pyfloordiv longitude 30) % 12

/-- Archetype lookup of simple_diagnosis in
src/astro_step4_ultimate_api_fixed.py, line 343:
ARCHETYPE_DATABASE.get((sun_element, moon_element), unknown archetype);
the sun element is always the first key component. -/
def simple_diagnosis_archetype (sun_element moon_element : String) : String :=
  (ARCHETYPE_DATABASE.lookup (sun_element, moon_element)).getD "不明な元型"

/-- The four recognized elements, in the key order of the counter
dictionaries at lines 345 and 1016. -/
def four_elements : List String := ["火", "地", "風", "水"]

/-- Element counting of calculate_element_balance, lines 1018-1021:
each record contributes planet_data.get(element-key, Fire-kanji), and
only the four recognized elements are counted. -/
def countElementFire (planets : List PlanetPos) (e : String) : ℕ :=
  planets.countP (fun p => p.element.getD "火" == e)

/-- Element counting of simple_diagnosis, lines 346-349: the missing
element key defaults to the unknown marker instead, and only the four
recognized elements are counted. -/
def countElementUnknown (planets : List PlanetPos) (e : String) : ℕ :=
  planets.countP (fun p => p.element.getD "不明" == e)

/-- total = sum(elements.values()) at line 1023 of
calculate_element_balance: the number of records whose effective
element is recognized. -/
def totalRecognizedFire (planets : List PlanetPos) : ℕ :=
  countElementFire planets "火" + countElementFire planets "地" +
    countElementFire planets "風" + countElementFire planets "水"

/-- The four element percentages, fields in the source key order
Fire, Earth, Air, Water. -/
structure ElementBalance where
  fire : ℚ
  earth : ℚ
  air : ℚ
  water : ℚ
  deriving DecidableEq

/-- calculate_element_balance from
src/astro_step4_ultimate_api_fixed.py, lines 1014-1026: percentages
are count divided by the recognized total, times 100, rounded to one
decimal place per element; a zero total returns the explicit
equal-share default of line 1026. -/
def calculate_element_balance (planets : List PlanetPos) : ElementBalance :=
  if 0 < totalRecognizedFire planets then
    { fire := pyround ((countElementFire planets "火" : ℚ) / (totalRecognizedFire planets : ℚ) * 100) 1
      earth := pyround ((countElementFire planets "地" : ℚ) / (totalRecognizedFire planets : ℚ) * 100) 1
      air := pyround ((countElementFire planets "風" : ℚ) / (totalRecognizedFire planets : ℚ) * 100) 1
      water := pyround ((countElementFire planets "水" : ℚ) / (totalRecognizedFire planets : ℚ) * 100) 1 }
  else { fire := 25, earth := 25, air := 25, water := 25 }

/-- The inline element_balance computation of simple_diagnosis in
src/astro_step4_ultimate_api_fixed.py, lines 345-357: each percentage
divides by the total record count len(planets), and each field guards
the division with its own conditional defaulting to 0. -/
def simple_diagnosis_element_balance (planets : List PlanetPos) : ElementBalance :=
  { fire :=
      if 0 < planets.length then
        pyround ((countElementUnknown planets "火" : ℚ) / (planets.length : ℚ) * 100) 1
      else 0
    earth :=
      if 0 < planets.length then
        pyround ((countElementUnknown planets "地" : ℚ) / (planets.length : ℚ) * 100) 1
      else 0
    air :=
      if 0 < planets.length then
        pyround ((countElementUnknown planets "風" : ℚ) / (planets.length : ℚ) * 100) 1
      else 0
    water :=
      if 0 < planets.length then
        pyround ((countElementUnknown planets "水" : ℚ) / (planets.length : ℚ) * 100) 1
      else 0 }

/-- The 7-body scenario of the spec: Sun Fire, Moon Water, Mercury
Fire, Venus Earth, Mars Fire, Jupiter Air, Saturn Water (elements in
Japanese as produced by the pipeline). -/
def seven_planets : List PlanetPos :=
  [{ sign := "獅子座", degree := 0, longitude := 120, element := some "火" },
   { sign := "蟹座", degree := 0, longitude := 90, element := some "水" },
   { sign := "牡羊座", degree := 0, longitude := 0, element := some "火" },
   { sign := "牡牛座", degree := 0, longitude := 30, element := some "地" },
   { sign := "射手座", degree := 0, longitude := 240, element := some "火" },
   { sign := "天秤座", degree := 0, longitude := 180, element := some "風" },
   { sign := "山羊座", degree := 0, longitude := 270, element := some "水" }]

/-- Request fields of the calculate-planets endpoint after the int()
conversions of lines 244-249. -/
structure PlanetsInput where
  birth_year : ℤ
  birth_month : ℤ
  birth_day : ℤ
  birth_hour : ℤ
  birth_minute : ℤ
  birth_prefecture : String

/-- A Python naive datetime value (year, month, day, hour, minute). -/
structure DT where
  year : ℤ
  month : ℤ
  day : ℤ
  hour : ℤ
  minute : ℤ
  deriving DecidableEq

/-- The observer.date assignment of calculate_planetary_positions in
src/app.py, line 85: the civil birth datetime is formatted with
strftime and handed unchanged to the pyephem observer, whose date
field is interpreted in UTC; no offset is subtracted anywhere in
app.py (the file contains no timedelta), so the instant fed to the
resolver is the civil datetime itself. -/
def app_observer_date (birth_datetime : DT) : DT := birth_datetime

/-- 1 for a proleptic-Gregorian leap year, 0 otherwise, following the
leap rule used by the Python datetime module. -/
def leapBit (y : ℤ) : ℤ :=
  if y % 4 = 0 ∧ (y % 100 ≠ 0 ∨ y % 400 = 0) then 1 else 0

/-- Days in a month of the proleptic Gregorian calendar, as enforced
by the Python datetime constructor. -/
def daysInMonth (y m : ℤ) : ℤ :=
  if m = 2 then 28 + leapBit y
  else if m = 4 ∨ m = 6 ∨ m = 9 ∨ m = 11 then 30
  else 31

/-- Validity of the field tuple for the Python datetime constructor:
datetime(year, month, day, hour, minute) succeeds exactly when this
holds, and raises ValueError otherwise. -/
def datetime_valid (dt : DT) : Prop :=
  1 ≤ dt.year ∧ dt.year ≤ 9999 ∧ 1 ≤ dt.month ∧ dt.month ≤ 12 ∧
    1 ≤ dt.day ∧ dt.day ≤ daysInMonth dt.year dt.month ∧
    0 ≤ dt.hour ∧ dt.hour ≤ 23 ∧ 0 ≤ dt.minute ∧ dt.minute ≤ 59

instance (dt : DT) : Decidable (datetime_valid dt) := by
  unfold datetime_valid
  infer_instance

/-- birth_datetime_jst of lines 274 and 963: the civil datetime built
from the request fields. -/
def birth_datetime_jst (inp : PlanetsInput) : DT :=
  { year := inp.birth_year, month := inp.birth_month, day := inp.birth_day,
    hour := inp.birth_hour, minute := inp.birth_minute }

/-- datetime minus timedelta(hours=9), lines 275 and 967, on a valid
datetime: hours at least 9 stay on the same day; otherwise the day is
borrowed, rolling over month and year boundaries exactly as the Python
datetime subtraction does on the proleptic Gregorian calendar. -/
def sub_nine_hours (dt : DT) : DT :=
  if 9 ≤ dt.hour then
    { year := dt.year, month := dt.month, day := dt.day,
      hour := dt.hour - 9, minute := dt.minute }
  else if 1 < dt.day then
    { year := dt.year, month := dt.month, day := dt.day - 1,
      hour := dt.hour + 15, minute := dt.minute }
  else if 1 < dt.month then
    { year := dt.year, month := dt.month - 1,
      day := daysInMonth dt.year (dt.month - 1),
      hour := dt.hour + 15, minute := dt.minute }
  else
    { year := dt.year - 1, month := 12, day := 31,
      hour := dt.hour + 15, minute := dt.minute }

/-- birth_datetime_utc of lines 275 and 967: the civil datetime with
the fixed 9-hour offset subtracted, independent of the region. -/
def birth_datetime_utc (inp : PlanetsInput) : DT :=
  sub_nine_hours (birth_datetime_jst inp)

/-- The julian-day argument of lines 280-283 and 969-972: swe.julday
is abstracted by the julday parameter, applied to the UTC components
with the hour fraction hour + minute / 60. -/
def julian_day_of (julday : ℤ → ℤ → ℤ → ℚ → ℚ) (inp : PlanetsInput) : ℚ :=
  julday (birth_datetime_utc inp).year (birth_datetime_utc inp).month
    (birth_datetime_utc inp).day
    (((birth_datetime_utc inp).hour : ℚ) + ((birth_datetime_utc inp).minute : ℚ) / 60)

/-- PREFECTURE_COORDINATES from src/astro_step4_ultimate_api_fixed.py,
lines 113-161. -/
def PREFECTURE_COORDINATES : List (String × ℚ × ℚ) :=
  [("北海道", 43.0642, 141.3469), ("青森県", 40.8244, 140.7400),
   ("岩手県", 39.7036, 141.1527), ("宮城県", 38.2682, 140.8721),
   ("秋田県", 39.7186, 140.1024), ("山形県", 38.2404, 140.3633),
   ("福島県", 37.7503, 140.4676), ("茨城県", 36.3418, 140.4468),
   ("栃木県", 36.5657, 139.8836), ("群馬県", 36.3911, 139.0608),
   ("埼玉県", 35.8617, 139.6455), ("千葉県", 35.6074, 140.1065),
   ("東京都", 35.6762, 139.6503), ("神奈川県", 35.4478, 139.6425),
   ("新潟県", 37.9026, 139.0232), ("富山県", 36.6959, 137.2113),
   ("石川県", 36.5946, 136.6256), ("福井県", 36.0652, 136.2217),
   ("山梨県", 35.6642, 138.5683), ("長野県", 36.6513, 138.1810),
   ("岐阜県", 35.3912, 136.7223), ("静岡県", 34.9756, 138.3828),
   ("愛知県", 35.1802, 136.9066), ("三重県", 34.7303, 136.5086),
   ("滋賀県", 35.0045, 135.8686), ("京都府", 35.0211, 135.7556),
   ("大阪府", 34.6937, 135.5023), ("兵庫県", 34.6913, 135.1830),
   ("奈良県", 34.6851, 135.8048), ("和歌山県", 34.2261, 135.1675),
   ("鳥取県", 35.5038, 134.2384), ("島根県", 35.4723, 133.0505),
   ("岡山県", 34.6617, 133.9341), ("広島県", 34.3963, 132.4596),
   ("山口県", 34.1859, 131.4706), ("徳島県", 34.0658, 134.5594),
   ("香川県", 34.3401, 134.0434), ("愛媛県", 33.8416, 132.7657),
   ("高知県", 33.5597, 133.5311), ("福岡県", 33.6064, 130.4181),
   ("佐賀県", 33.2494, 130.2989), ("長崎県", 32.7503, 129.8677),
   ("熊本県", 32.7898, 130.7417), ("大分県", 33.2382, 131.6126),
   ("宮崎県", 31.9077, 131.4202), ("鹿児島県", 31.5602, 130.5581),
   ("沖縄県", 26.2124, 127.6792)]

/-- The seven tracked bodies with their swisseph identifiers
(SE_SUN = 0 through SE_SATURN = 6), in the loop order of lines
290-298. -/
def planet_ids : List (String × ℕ) :=
  [("sun", 0), ("moon", 1), ("mercury", 2), ("venus", 3),
   ("mars", 4), ("jupiter", 5), ("saturn", 6)]

/-- The input validation sequence of calculate_planets, lines 253-277,
in source order: year, month, day, hour, minute range checks, the
prefecture membership check, then the datetime construction (whose
ValueError is reported as the invalid-date message; the embedded
message omits the appended exception text).  Returns the first error,
or none when every check passes. -/
def planets_validate (inp : PlanetsInput) : Option String :=
  if 1900 ≤ inp.birth_year ∧ inp.birth_year ≤ 2100 then
    if 1 ≤ inp.birth_month ∧ inp.birth_month ≤ 12 then
      if 1 ≤ inp.birth_day ∧ inp.birth_day ≤ 31 then
        if 0 ≤ inp.birth_hour ∧ inp.birth_hour ≤ 23 then
          if 0 ≤ inp.birth_minute ∧ inp.birth_minute ≤ 59 then
            if (PREFECTURE_COORDINATES.lookup inp.birth_prefecture).isSome then
              if datetime_valid (birth_datetime_jst inp) then none
              else some "無効な日付です"
            else some "無効な都道府県です"
          else some "分は0-59の範囲で入力してください"
        else some "時は0-23の範囲で入力してください"
      else some "日は1-31の範囲で入力してください"
    else some "月は1-12の範囲で入力してください"
  else some "年は1900-2100年の範囲で入力してください"

/-- The body-resolution loop of calculate_planets, lines 300-305: the
first body whose position comes back None aborts the whole request
with an error naming that body; otherwise every position is collected. -/
def calculate_planets_loop (calc_ut : ℚ → ℕ → Option ℚ) (julian_day : ℚ) :
    List (String × ℕ) → Except String (List (String × PlanetPos))
  | [] => Except.ok []
  | (planet_name, planet_id) :: rest =>
    match calculate_planet_position calc_ut julian_day planet_id with
    | some position =>
      (calculate_planets_loop calc_ut julian_day rest).map
        (fun ps => (planet_name, position) :: ps)
    | none => Except.error (planet_name ++ "の計算に失敗しました")

/-- calculate_planets from src/astro_step4_ultimate_api_fixed.py,
lines 231-318 (and its twin calculate_planets_internal, lines
948-1006): validation first, then the julian-day conversion of the
UTC datetime, then the seven-body resolution loop.  The latitude and
longitude looked up for the prefecture are never passed to the
ephemeris calls in the source, so the coordinates do not influence
the result. -/
def calculate_planets (julday : ℤ → ℤ → ℤ → ℚ → ℚ) (calc_ut : ℚ → ℕ → Option ℚ)
    (inp : PlanetsInput) : Except String (List (String × PlanetPos)) :=
  match planets_validate inp with
  | some e => Except.error e
  | none => calculate_planets_loop calc_ut (julian_day_of julday inp) planet_ids

/-- Reference timeline, spec side: leap years from 1900 up to
(excluding) year y, for years in the supported 1900-2100 window. -/
def daysBeforeYear (y : ℤ) : ℤ :=
  365 * (y - 1900) + ((y - 1) / 4 - 474) - ((y - 1) / 100 - 18) + ((y - 1) / 400 - 4)

/-- Reference timeline, spec side: days of year y before month m. -/
def daysBeforeMonth (y m : ℤ) : ℤ :=
  if m ≤ 1 then 0
  else if m = 2 then 31
  else if m = 3 then 59 + leapBit y
  else if m = 4 then 90 + leapBit y
  else if m = 5 then 120 + leapBit y
  else if m = 6 then 151 + leapBit y
  else if m = 7 then 181 + leapBit y
  else if m = 8 then 212 + leapBit y
  else if m = 9 then 243 + leapBit y
  else if m = 10 then 273 + leapBit y
  else if m = 11 then 304 + leapBit y
  else 334 + leapBit y

/-- Reference timeline, spec side: day count of a date from 1900-01-01. -/
def dayNumber (dt : DT) : ℤ :=
  daysBeforeYear dt.year + daysBeforeMonth dt.year dt.month + (dt.day - 1)

/-- Reference timeline, spec side: total minutes of a datetime on the
linear timeline anchored at 1900-01-01 00:00. -/
def totalMinutes (dt : DT) : ℤ :=
  1440 * dayNumber dt + 60 * dt.hour + dt.minute

/-- A trivial julian-day stub used to instantiate theorems whose
conclusion does not depend on the conversion. -/
def julday_stub : ℤ → ℤ → ℤ → ℚ → ℚ := fun _ _ _ _ => 0

/-- An always-failing ephemeris provider. -/
def calc_ut_none : ℚ → ℕ → Option ℚ := fun _ _ => none

/-- An always-succeeding ephemeris provider placing every body at
longitude 15. -/
def calc_ut_const : ℚ → ℕ → Option ℚ := fun _ _ => some 15

/-! ## Helper lemmas -/

lemma pymod30_nonneg (x : ℚ) : 0 ≤ pymod x 30 := by
  unfold pymod pyfloordiv
  have h := Int.floor_le (x / 30)
  have hx : (30 : ℚ) * (x / 30) = x := by ring
  nlinarith [h]

lemma pymod30_lt (x : ℚ) : pymod x 30 < 30 := by
  unfold pymod pyfloordiv
  have h := Int.lt_floor_add_one (x / 30)
  have hx : (30 : ℚ) * (x / 30) = x := by ring
  nlinarith [h]

lemma signIndex_nonneg (L : ℚ) : 0 ≤ signIndex L :=
  Int.emod_nonneg _ (by norm_num)

lemma signIndex_lt_twelve (L : ℚ) : signIndex L < 12 :=
  Int.emod_lt_of_pos _ (by norm_num)

lemma pyfloordiv_nonneg_of (L : ℚ) (h : 0 ≤ L) : 0 ≤ pyfloordiv L 30 := by
  unfold pyfloordiv
  exact Int.le_floor.mpr (by push_cast; exact div_nonneg h (by norm_num))

lemma pyfloordiv_lt_twelve (L : ℚ) (h : L < 360) : pyfloordiv L 30 < 12 := by
  unfold pyfloordiv
  rw [Int.floor_lt, div_lt_iff₀ (show (0:ℚ) < 30 by norm_num)]
  push_cast
  linarith

lemma pyfloordiv_add_360 (L : ℚ) (k : ℤ) :
    pyfloordiv (L + 360 * k) 30 = pyfloordiv L 30 + 12 * k := by
  unfold pyfloordiv
  have h : (L + 360 * (k : ℚ)) / 30 = L / 30 + (12 * k : ℤ) := by push_cast; ring
  rw [h, Int.floor_add_int]

/-! ## Claims C1 to C3 -/

/-- C1: for every longitude L the classifier returns the sign at index
floor(L / 30) mod 12 of the fixed 12-sign list starting at Aries, and
degreeInSign = L mod 30 always lies in the interval from 0 (inclusive)
to 30 (exclusive); classifying longitude 15 yields sign index 0 and
degreeInSign 15.  The app.py classifier get_zodiac_sign satisfies the
index formula for every rational longitude; the classification inside
calculate_planet_position (which omits the mod 12 reduction) agrees
with it on the provider range 0 to 360. -/
theorem claim_C1 :
    (∀ L : ℚ, 0 ≤ signIndex L ∧ signIndex L < 12
        ∧ 0 ≤ pymod L 30 ∧ pymod L 30 < 30
        ∧ get_zodiac_sign L = zodiac_signs.getD (signIndex L).toNat "Aries")
    ∧ (∀ L : ℚ, 0 ≤ L → L < 360 →
        (classify_longitude L).sign
          = japanese_zodiac_signs.getD (signIndex L).toNat "未知の星座")
    ∧ signIndex 15 = 0 ∧ pymod 15 30 = 15
    ∧ get_zodiac_sign 15 = "Aries"
    ∧ (classify_longitude 15).sign = "牡羊座"
    ∧ (classify_longitude 15).degree = 15 := by
  have hf15 : pyfloordiv (15 : ℚ) 30 = 0 := by unfold pyfloordiv; norm_num
  have hm15 : pymod (15 : ℚ) 30 = 15 := by unfold pymod; rw [hf15]; norm_num
  refine ⟨fun L => ⟨signIndex_nonneg L, signIndex_lt_twelve L,
    pymod30_nonneg L, pymod30_lt L, rfl⟩, ?_, ?_, ?_, ?_, ?_, ?_⟩
  · intro L h0 h360
    have ha := pyfloordiv_nonneg_of L h0
    have hb := pyfloordiv_lt_twelve L h360
    have hidx : signIndex L = pyfloordiv L 30 := by unfold signIndex; omega
    show get_sign_name_japanese (pyfloordiv L 30) = _
    rw [hidx]
    unfold get_sign_name_japanese
    rw [if_pos ⟨ha, hb⟩]
  · unfold signIndex; rw [hf15]; rfl
  · exact hm15
  · unfold get_zodiac_sign; rw [hf15]; rfl
  · show get_sign_name_japanese (pyfloordiv 15 30) = _
    rw [hf15]; decide
  · show pyround (pymod 15 30) 2 = 15
    rw [hm15]
    unfold pyround rhe
    norm_num

/-- C1 witness: the classifier statement instantiated at longitude 15. -/
theorem claim_C1_witness :
    (0 : ℚ) ≤ 15 ∧ (15 : ℚ) < 360
    ∧ (classify_longitude 15).sign
        = japanese_zodiac_signs.getD (signIndex 15).toNat "未知の星座" :=
  ⟨by norm_num, by norm_num, claim_C1.2.1 15 (by norm_num) (by norm_num)⟩

/-- C2: the sign and element classification is total on the rationals
and periodic with period 360: for every longitude L and integer k the
sign, the degree in sign, and the element of L + 360 k coincide with
those of L; in particular longitude 375 classifies exactly as
longitude 15. -/
theorem claim_C2 :
    (∀ (L : ℚ) (k : ℤ),
        get_zodiac_sign (L + 360 * k) = get_zodiac_sign L
        ∧ pymod (L + 360 * k) 30 = pymod L 30
        ∧ get_element (get_zodiac_sign (L + 360 * k))
            = get_element (get_zodiac_sign L))
    ∧ get_zodiac_sign 375 = get_zodiac_sign 15
    ∧ pymod 375 30 = pymod 15 30
    ∧ get_element (get_zodiac_sign 375) = get_element (get_zodiac_sign 15) := by
  have hmain : ∀ (L : ℚ) (k : ℤ),
      get_zodiac_sign (L + 360 * k) = get_zodiac_sign L
      ∧ pymod (L + 360 * k) 30 = pymod L 30 := by
    intro L k
    constructor
    · unfold get_zodiac_sign
      rw [pyfloordiv_add_360, Int.add_mul_emod_self_left]
    · unfold pymod
      rw [pyfloordiv_add_360]
      push_cast
      ring
  have h375 : (375 : ℚ) = 15 + 360 * ((1 : ℤ) : ℚ) := by norm_num
  refine ⟨fun L k => ⟨(hmain L k).1, (hmain L k).2, by rw [(hmain L k).1]⟩,
    ?_, ?_, ?_⟩
  · rw [h375]; exact (hmain 15 1).1
  · rw [h375]; exact (hmain 15 1).2
  · rw [h375, (hmain 15 1).1]

/-- C3: the archetype resolver keys on the ordered pair with the sun
element first: (Fire, Water) resolves to The Geyser, the swapped pair
(Water, Fire) to The Steam, and the two labels are distinct (the
Japanese kanji for Fire and Water are the element values produced by
the pipeline).  The separate app.py table is likewise order-sensitive
on the same pair. -/
theorem claim_C3 :
    simple_diagnosis_archetype "火" "水" = "The Geyser（間欠泉）"
    ∧ simple_diagnosis_archetype "水" "火" = "The Steam（蒸気）"
    ∧ ("The Geyser（間欠泉）" : String) ≠ "The Steam（蒸気）"
    ∧ get_sixteen_archetype "Fire" "Water" = "Intuitive"
    ∧ get_sixteen_archetype "Water" "Fire" = "Transformer"
    ∧ get_sixteen_archetype "Fire" "Water" ≠ get_sixteen_archetype "Water" "Fire" := by
  decide

/-! ## Rounding and counting lemmas -/

lemma rhe_le_add_half (x : ℚ) : (rhe x : ℚ) ≤ x + 1/2 := by
  unfold rhe
  have h1 := Int.floor_le x
  have h2 := Int.lt_floor_add_one x
  split_ifs <;> push_cast <;> linarith

lemma sub_half_le_rhe (x : ℚ) : x - 1/2 ≤ (rhe x : ℚ) := by
  unfold rhe
  have h1 := Int.floor_le x
  have h2 := Int.lt_floor_add_one x
  split_ifs <;> push_cast <;> linarith

lemma rhe_nonneg (x : ℚ) (h : 0 ≤ x) : 0 ≤ rhe x := by
  have h0 : 0 ≤ ⌊x⌋ := Int.le_floor.mpr (by push_cast; exact h)
  unfold rhe
  split_ifs <;> omega

lemma rhe_le_of_le (x : ℚ) (n : ℤ) (h : x ≤ n) : rhe x ≤ n := by
  have hf : ⌊x⌋ ≤ n := by
    have hm := Int.floor_mono h
    rwa [Int.floor_intCast] at hm
  rcases lt_or_eq_of_le hf with hlt | heq
  · have hb : rhe x ≤ ⌊x⌋ + 1 := by unfold rhe; split_ifs <;> omega
    omega
  · have hxeq : x = (n : ℚ) := by
      have hnx : (n : ℚ) ≤ x := by
        rw [← heq]
        exact Int.floor_le x
      exact le_antisymm h hnx
    rw [hxeq]
    unfold rhe
    rw [Int.floor_intCast]
    norm_num

lemma pyround1_le_add (x : ℚ) : pyround x 1 ≤ x + 1/20 := by
  unfold pyround
  have h := rhe_le_add_half (x * 10 ^ 1)
  rw [pow_one] at h ⊢
  linarith

lemma sub_le_pyround1 (x : ℚ) : x - 1/20 ≤ pyround x 1 := by
  unfold pyround
  have h := sub_half_le_rhe (x * 10 ^ 1)
  rw [pow_one] at h ⊢
  linarith

lemma pyround1_nonneg (x : ℚ) (h : 0 ≤ x) : 0 ≤ pyround x 1 := by
  unfold pyround
  have hr := rhe_nonneg (x * 10 ^ 1) (by positivity)
  apply div_nonneg _ (by norm_num)
  exact_mod_cast hr

lemma pyround1_le_100 (x : ℚ) (h : x ≤ 100) : pyround x 1 ≤ 100 := by
  unfold pyround
  have h1000 : x * 10 ^ 1 ≤ ((1000 : ℤ) : ℚ) := by push_cast; linarith
  have hr := rhe_le_of_le _ _ h1000
  rw [div_le_iff₀ (by norm_num : (0:ℚ) < 10 ^ 1)]
  calc ((rhe (x * 10 ^ 1)) : ℚ) ≤ ((1000 : ℤ) : ℚ) := by exact_mod_cast hr
    _ = 100 * 10 ^ 1 := by norm_num

lemma countElementFire_le_length (planets : List PlanetPos) (e : String) :
    countElementFire planets e ≤ planets.length :=
  List.countP_le_length _

lemma countFire_sum (planets : List PlanetPos)
    (h : ∀ p ∈ planets, ∃ e ∈ four_elements, p.element = some e) :
    totalRecognizedFire planets = planets.length := by
  induction planets with
  | nil => rfl
  | cons p t ih =>
    obtain ⟨e, he, hpe⟩ := h p (List.mem_cons_self p t)
    have ihh := ih (fun q hq => h q (List.mem_cons_of_mem p hq))
    unfold totalRecognizedFire countElementFire at ihh ⊢
    fin_cases he <;> simp [List.countP_cons, hpe] <;> omega

lemma countUnknown_eq_countFire (planets : List PlanetPos)
    (h : ∀ p ∈ planets, ∃ e ∈ four_elements, p.element = some e) (e : String) :
    countElementUnknown planets e = countElementFire planets e := by
  unfold countElementUnknown countElementFire
  apply List.countP_congr
  intro p hp
  obtain ⟨e0, he0, hpe⟩ := h p hp
  rw [hpe]
  simp [Option.getD]

/-! ## Claims C4, C5, C10 -/

/-- C4: for a non-empty body set whose records all carry one of the
four recognized elements, the balance is count divided by the total
body count, times 100, rounded independently per element to one
decimal place; each value lies between 0 and 100 and the four values
sum to 100 within 0.4; the 7-body scenario with counts Fire 3,
Earth 1, Air 1, Water 2 yields 42.9, 14.3, 14.3, 28.6. -/
theorem claim_C4 :
    calculate_element_balance seven_planets
      = { fire := 42.9, earth := 14.3, air := 14.3, water := 28.6 }
    ∧ ∀ planets : List PlanetPos, planets ≠ [] →
        (∀ p ∈ planets, ∃ e ∈ four_elements, p.element = some e) →
        calculate_element_balance planets
          = { fire := pyround ((countElementFire planets "火" : ℚ) / (planets.length : ℚ) * 100) 1
              earth := pyround ((countElementFire planets "地" : ℚ) / (planets.length : ℚ) * 100) 1
              air := pyround ((countElementFire planets "風" : ℚ) / (planets.length : ℚ) * 100) 1
              water := pyround ((countElementFire planets "水" : ℚ) / (planets.length : ℚ) * 100) 1 }
        ∧ (0 ≤ (calculate_element_balance planets).fire
            ∧ (calculate_element_balance planets).fire ≤ 100)
        ∧ (0 ≤ (calculate_element_balance planets).earth
            ∧ (calculate_element_balance planets).earth ≤ 100)
        ∧ (0 ≤ (calculate_element_balance planets).air
            ∧ (calculate_element_balance planets).air ≤ 100)
        ∧ (0 ≤ (calculate_element_balance planets).water
            ∧ (calculate_element_balance planets).water ≤ 100)
        ∧ 99.6 ≤ (calculate_element_balance planets).fire
              + (calculate_element_balance planets).earth
              + (calculate_element_balance planets).air
              + (calculate_element_balance planets).water
        ∧ (calculate_element_balance planets).fire
              + (calculate_element_balance planets).earth
              + (calculate_element_balance planets).air
              + (calculate_element_balance planets).water ≤ 100.4 := by
  constructor
  · -- the concrete 7-body scenario
    have hc1 : countElementFire seven_planets "火" = 3 := by decide
    have hc2 : countElementFire seven_planets "地" = 1 := by decide
    have hc3 : countElementFire seven_planets "風" = 1 := by decide
    have hc4 : countElementFire seven_planets "水" = 2 := by decide
    have htot : totalRecognizedFire seven_planets = 7 := by decide
    have p1 : pyround ((300 : ℚ) / 7) 1 = 429 / 10 := by
      unfold pyround rhe
      rw [show ⌊(300 : ℚ) / 7 * 10 ^ 1⌋ = 428 from by norm_num]
      norm_num
    have p2 : pyround ((100 : ℚ) / 7) 1 = 143 / 10 := by
      unfold pyround rhe
      rw [show ⌊(100 : ℚ) / 7 * 10 ^ 1⌋ = 142 from by norm_num]
      norm_num
    have p4 : pyround ((200 : ℚ) / 7) 1 = 143 / 5 := by
      unfold pyround rhe
      rw [show ⌊(200 : ℚ) / 7 * 10 ^ 1⌋ = 285 from by norm_num]
      norm_num
    unfold calculate_element_balance
    rw [htot, hc1, hc2, hc3, hc4]
    norm_num [p1, p2, p4]
  · intro planets hne hrec
    have hlen : 0 < planets.length := List.length_pos.mpr hne
    have hsum := countFire_sum planets hrec
    have hpos : 0 < totalRecognizedFire planets := by omega
    have hbal : calculate_element_balance planets
        = { fire := pyround ((countElementFire planets "火" : ℚ) / (planets.length : ℚ) * 100) 1
            earth := pyround ((countElementFire planets "地" : ℚ) / (planets.length : ℚ) * 100) 1
            air := pyround ((countElementFire planets "風" : ℚ) / (planets.length : ℚ) * 100) 1
            water := pyround ((countElementFire planets "水" : ℚ) / (planets.length : ℚ) * 100) 1 } := by
      unfold calculate_element_balance
      rw [if_pos hpos, hsum]
    have hnq : (0 : ℚ) < (planets.length : ℚ) := by exact_mod_cast hlen
    have hx : ∀ c : ℕ, c ≤ planets.length →
        0 ≤ (c : ℚ) / (planets.length : ℚ) * 100
        ∧ (c : ℚ) / (planets.length : ℚ) * 100 ≤ 100 := by
      intro c hc
      constructor
      · positivity
      · have hdiv : (c : ℚ) / (planets.length : ℚ) ≤ 1 := by
          rw [div_le_one hnq]
          exact_mod_cast hc
        linarith
    have hb1 := hx _ (countElementFire_le_length planets "火")
    have hb2 := hx _ (countElementFire_le_length planets "地")
    have hb3 := hx _ (countElementFire_le_length planets "風")
    have hb4 := hx _ (countElementFire_le_length planets "水")
    have hq : (countElementFire planets "火" : ℚ) + (countElementFire planets "地" : ℚ)
        + (countElementFire planets "風" : ℚ) + (countElementFire planets "水" : ℚ)
        = (planets.length : ℚ) := by
      have hn : countElementFire planets "火" + countElementFire planets "地"
          + countElementFire planets "風" + countElementFire planets "水"
          = planets.length := by
        unfold totalRecognizedFire at hsum
        omega
      exact_mod_cast hn
    have hsx : (countElementFire planets "火" : ℚ) / (planets.length : ℚ) * 100
        + (countElementFire planets "地" : ℚ) / (planets.length : ℚ) * 100
        + (countElementFire planets "風" : ℚ) / (planets.length : ℚ) * 100
        + (countElementFire planets "水" : ℚ) / (planets.length : ℚ) * 100 = 100 := by
      field_simp
      linarith [hq]
    refine ⟨hbal, ?_, ?_, ?_, ?_, ?_, ?_⟩
    · rw [hbal]
      exact ⟨pyround1_nonneg _ hb1.1, pyround1_le_100 _ hb1.2⟩
    · rw [hbal]
      exact ⟨pyround1_nonneg _ hb2.1, pyround1_le_100 _ hb2.2⟩
    · rw [hbal]
      exact ⟨pyround1_nonneg _ hb3.1, pyround1_le_100 _ hb3.2⟩
    · rw [hbal]
      exact ⟨pyround1_nonneg _ hb4.1, pyround1_le_100 _ hb4.2⟩
    · rw [hbal]
      have e1 := sub_le_pyround1 ((countElementFire planets "火" : ℚ) / (planets.length : ℚ) * 100)
      have e2 := sub_le_pyround1 ((countElementFire planets "地" : ℚ) / (planets.length : ℚ) * 100)
      have e3 := sub_le_pyround1 ((countElementFire planets "風" : ℚ) / (planets.length : ℚ) * 100)
      have e4 := sub_le_pyround1 ((countElementFire planets "水" : ℚ) / (planets.length : ℚ) * 100)
      show (99.6 : ℚ) ≤ _
      norm_num
      linarith [hsx]
    · rw [hbal]
      have e1 := pyround1_le_add ((countElementFire planets "火" : ℚ) / (planets.length : ℚ) * 100)
      have e2 := pyround1_le_add ((countElementFire planets "地" : ℚ) / (planets.length : ℚ) * 100)
      have e3 := pyround1_le_add ((countElementFire planets "風" : ℚ) / (planets.length : ℚ) * 100)
      have e4 := pyround1_le_add ((countElementFire planets "水" : ℚ) / (planets.length : ℚ) * 100)
      show _ ≤ (100.4 : ℚ)
      norm_num
      linarith [hsx]

/-- C4 witness: the general statement applied to the 7-body scenario,
projected to the lower sum bound. -/
theorem claim_C4_witness :
    seven_planets ≠ ([] : List PlanetPos)
    ∧ 99.6 ≤ (calculate_element_balance seven_planets).fire
          + (calculate_element_balance seven_planets).earth
          + (calculate_element_balance seven_planets).air
          + (calculate_element_balance seven_planets).water :=
  ⟨by decide, ((claim_C4.2 seven_planets (by decide) (by decide)).2.2.2.2.2).1⟩

/-- C5: aggregating an empty body set returns the equal-share balance
of 25 for each element, through the explicit zero-total guard of
calculate_element_balance (the else branch of line 1026), not through
a division by zero or an exception handler; more generally any body
set with no recognized element yields the same explicit default. -/
theorem claim_C5 :
    calculate_element_balance []
      = { fire := 25, earth := 25, air := 25, water := 25 }
    ∧ ∀ planets : List PlanetPos, totalRecognizedFire planets = 0 →
        calculate_element_balance planets
          = { fire := 25, earth := 25, air := 25, water := 25 } := by
  constructor
  · rfl
  · intro planets h
    unfold calculate_element_balance
    rw [h]
    simp

/-- C5 witness: the guarded branch applied to the empty set. -/
theorem claim_C5_witness :
    totalRecognizedFire [] = 0
    ∧ calculate_element_balance []
        = { fire := 25, earth := 25, air := 25, water := 25 } :=
  ⟨rfl, claim_C5.2 [] rfl⟩

/-- C10 counterexample: on the empty mapping the inline balance of
simple_diagnosis returns 0 for every element while
calculate_element_balance returns 25 for every element, so the two
computations are not equal on every mapping. -/
theorem claim_C10_counterexample :
    simple_diagnosis_element_balance []
      = { fire := 0, earth := 0, air := 0, water := 0 }
    ∧ calculate_element_balance []
      = { fire := 25, earth := 25, air := 25, water := 25 }
    ∧ simple_diagnosis_element_balance [] ≠ calculate_element_balance [] := by
  refine ⟨rfl, rfl, ?_⟩
  intro h
  have h2 : (0 : ℚ) = 25 := congrArg ElementBalance.fire h
  norm_num at h2

/-- C10 amended: the inline balance of simple_diagnosis and
calculate_element_balance agree on every non-empty mapping whose
records all carry one of the four recognized elements; they diverge
on the empty mapping (0 versus 25 per element) and may diverge on
records with a missing or unrecognized element, because the inline
version divides by the record count while the helper divides by the
recognized count and defaults a missing element to Fire. -/
theorem claim_C10_amended :
    ∀ planets : List PlanetPos, planets ≠ [] →
      (∀ p ∈ planets, ∃ e ∈ four_elements, p.element = some e) →
      simple_diagnosis_element_balance planets = calculate_element_balance planets := by
  intro planets hne hrec
  have hlen : 0 < planets.length := List.length_pos.mpr hne
  have hsum := countFire_sum planets hrec
  have hpos : 0 < totalRecognizedFire planets := by omega
  unfold simple_diagnosis_element_balance calculate_element_balance
  simp only [if_pos hpos, if_pos hlen]
  rw [hsum,
    countUnknown_eq_countFire planets hrec "火",
    countUnknown_eq_countFire planets hrec "地",
    countUnknown_eq_countFire planets hrec "風",
    countUnknown_eq_countFire planets hrec "水"]

/-- C10 witness: agreement of the two balance computations on the
7-body scenario. -/
theorem claim_C10_witness :
    simple_diagnosis_element_balance seven_planets
      = calculate_element_balance seven_planets :=
  claim_C10_amended seven_planets (by decide) (by decide)

/-! ## Resolution-loop lemmas -/

lemma loop_ok_of_total (calc_ut : ℚ → ℕ → Option ℚ) (j : ℚ) (l : List (String × ℕ))
    (h : ∀ pr ∈ l, (calc_ut j pr.2).isSome = true) :
    ∃ res, calculate_planets_loop calc_ut j l = Except.ok res := by
  induction l with
  | nil => exact ⟨[], rfl⟩
  | cons hd tl ih =>
    obtain ⟨nm, pid⟩ := hd
    obtain ⟨v, hv⟩ := Option.isSome_iff_exists.mp (h (nm, pid) (List.mem_cons_self _ tl))
    obtain ⟨res, hres⟩ := ih (fun q hq => h q (List.mem_cons_of_mem _ hq))
    exact ⟨(nm, classify_longitude v) :: res,
      by simp [calculate_planets_loop, calculate_planet_position, hv, hres, Except.map]⟩

lemma loop_error_of_find (calc_ut : ℚ → ℕ → Option ℚ) (j : ℚ) :
    ∀ (l : List (String × ℕ)) (pr : String × ℕ),
      l.find? (fun q => (calc_ut j q.2).isNone) = some pr →
      calculate_planets_loop calc_ut j l = Except.error (pr.1 ++ "の計算に失敗しました") := by
  intro l
  induction l with
  | nil => intro pr h; simp at h
  | cons hd tl ih =>
    intro pr h
    obtain ⟨nm, pid⟩ := hd
    by_cases hc : (calc_ut j pid).isNone = true
    · have hfind : List.find? (fun q : String × ℕ => (calc_ut j q.2).isNone)
          ((nm, pid) :: tl) = some (nm, pid) :=
        List.find?_cons_of_pos _ hc
      rw [hfind] at h
      obtain rfl : (nm, pid) = pr := by simpa using h
      simp [calculate_planets_loop, calculate_planet_position,
        Option.isNone_iff_eq_none.mp hc]
    · have hfind : List.find? (fun q : String × ℕ => (calc_ut j q.2).isNone)
          ((nm, pid) :: tl)
          = List.find? (fun q : String × ℕ => (calc_ut j q.2).isNone) tl :=
        List.find?_cons_of_neg _ hc
      rw [hfind] at h
      have hsome : ∃ v, calc_ut j pid = some v := by
        cases hcc : calc_ut j pid with
        | none => exact absurd (by simp [hcc]) hc
        | some v => exact ⟨v, rfl⟩
      obtain ⟨v, hv⟩ := hsome
      simp [calculate_planets_loop, calculate_planet_position, hv, ih pr h, Except.map]

lemma loop_ok_names (calc_ut : ℚ → ℕ → Option ℚ) (j : ℚ) :
    ∀ (l : List (String × ℕ)) (res : List (String × PlanetPos)),
      calculate_planets_loop calc_ut j l = Except.ok res →
      res.map Prod.fst = l.map Prod.fst
      ∧ ∀ pr ∈ l, (calc_ut j pr.2).isSome = true := by
  intro l
  induction l with
  | nil =>
    intro res h
    simp only [calculate_planets_loop, Except.ok.injEq] at h
    subst h
    exact ⟨rfl, by simp⟩
  | cons hd tl ih =>
    intro res h
    obtain ⟨nm, pid⟩ := hd
    cases hcc : calc_ut j pid with
    | none =>
      rw [show calculate_planets_loop calc_ut j ((nm, pid) :: tl)
          = Except.error (nm ++ "の計算に失敗しました") from by
        simp [calculate_planets_loop, calculate_planet_position, hcc]] at h
      cases h
    | some v =>
      rw [show calculate_planets_loop calc_ut j ((nm, pid) :: tl)
          = (calculate_planets_loop calc_ut j tl).map
              (fun ps => (nm, classify_longitude v) :: ps) from by
        simp [calculate_planets_loop, calculate_planet_position, hcc]] at h
      cases hrec : calculate_planets_loop calc_ut j tl with
      | error e => rw [hrec] at h; simp [Except.map] at h
      | ok res0 =>
        rw [hrec] at h
        simp only [Except.map, Except.ok.injEq] at h
        obtain ⟨hmap, hall⟩ := ih res0 hrec
        subst h
        constructor
        · simp [hmap]
        · intro pr hpr
          rcases List.mem_cons.mp hpr with hhd | hmem
          · subst hhd; simp [hcc]
          · exact hall pr hmem

/-! ## Claims C6, C7, C9 -/

/-- C6: malformed or out-of-range date and time fields are rejected
before any ephemeris call: the result for such inputs is the matching
validation error for every julian-day converter and every provider;
(2024, 2, 30, 0, 0) fails with the invalid-date error while
(2024, 2, 29) passes validation and succeeds whenever the provider
succeeds; a request that passes validation has year in 1900-2100,
month in 1-12, hour in 0-23, minute in 0-59 and a constructible date. -/
theorem claim_C6 :
    (∀ (julday : ℤ → ℤ → ℤ → ℚ → ℚ) (calc_ut : ℚ → ℕ → Option ℚ),
        calculate_planets julday calc_ut ⟨2024, 2, 30, 0, 0, "東京都"⟩
          = Except.error "無効な日付です")
    ∧ (∀ (julday : ℤ → ℤ → ℤ → ℚ → ℚ) (calc_ut : ℚ → ℕ → Option ℚ),
        (∀ t p, (calc_ut t p).isSome = true) →
        ∃ res, calculate_planets julday calc_ut ⟨2024, 2, 29, 0, 0, "東京都"⟩
          = Except.ok res)
    ∧ (∀ (julday : ℤ → ℤ → ℤ → ℚ → ℚ) (calc_ut : ℚ → ℕ → Option ℚ)
        (inp : PlanetsInput) (e : String),
        planets_validate inp = some e →
        calculate_planets julday calc_ut inp = Except.error e)
    ∧ (∀ inp : PlanetsInput, planets_validate inp = none →
        1900 ≤ inp.birth_year ∧ inp.birth_year ≤ 2100
        ∧ 1 ≤ inp.birth_month ∧ inp.birth_month ≤ 12
        ∧ 0 ≤ inp.birth_hour ∧ inp.birth_hour ≤ 23
        ∧ 0 ≤ inp.birth_minute ∧ inp.birth_minute ≤ 59
        ∧ datetime_valid (birth_datetime_jst inp)) := by
  refine ⟨?_, ?_, ?_, ?_⟩
  · intro julday calc_ut
    have hval : planets_validate ⟨2024, 2, 30, 0, 0, "東京都"⟩
        = some "無効な日付です" := by decide
    unfold calculate_planets
    rw [hval]
  · intro julday calc_ut htotal
    have hval : planets_validate ⟨2024, 2, 29, 0, 0, "東京都"⟩ = none := by decide
    unfold calculate_planets
    rw [hval]
    exact loop_ok_of_total calc_ut _ planet_ids (fun pr _ => htotal _ _)
  · intro julday calc_ut inp e h
    unfold calculate_planets
    rw [h]
  · intro inp h
    unfold planets_validate at h
    split_ifs at h with h1 h2 h3 h4 h5 h6 h7
    · exact ⟨h1.1, h1.2, h2.1, h2.2, h4.1, h4.2, h5.1, h5.2, h7⟩

/-- C6 witness: an out-of-range year is rejected with the year-range
error independently of the provider. -/
theorem claim_C6_witness :
    calculate_planets julday_stub calc_ut_none ⟨1800, 1, 1, 0, 0, "東京都"⟩
      = Except.error "年は1900-2100年の範囲で入力してください" :=
  claim_C6.2.2.1 julday_stub calc_ut_none _ _ (by decide)

/-- C7 amended: in the API server, a provider failure for any body
fails the whole request with a single error naming the first failing
body, and a successful result always contains all seven bodies (never
an incomplete profile); but calculate_planetary_positions in app.py, cited
by the claim, instead returns a substituted default profile
(longitude 0, sign Aries, element Fire, degree 0) when the provider
fails, rather than failing. -/
theorem claim_C7_amended :
    (∀ (julday : ℤ → ℤ → ℤ → ℚ → ℚ) (calc_ut : ℚ → ℕ → Option ℚ)
        (inp : PlanetsInput),
      planets_validate inp = none →
      (∀ pr : String × ℕ,
          planet_ids.find? (fun q => (calc_ut (julian_day_of julday inp) q.2).isNone)
            = some pr →
          calculate_planets julday calc_ut inp
            = Except.error (pr.1 ++ "の計算に失敗しました"))
      ∧ (∀ res, calculate_planets julday calc_ut inp = Except.ok res →
          res.map Prod.fst = planet_ids.map Prod.fst
          ∧ ∀ pr ∈ planet_ids, (calc_ut (julian_day_of julday inp) pr.2).isSome = true))
    ∧ calculate_planetary_positions none
        = { sun_longitude := 0, moon_longitude := 0, sun_sign := "Aries",
            moon_sign := "Aries", sun_element := "Fire", moon_element := "Fire",
            sun_degree := 0, moon_degree := 0 } := by
  constructor
  · intro julday calc_ut inp hval
    constructor
    · intro pr hfind
      unfold calculate_planets
      rw [hval]
      exact loop_error_of_find calc_ut _ planet_ids pr hfind
    · intro res hok
      unfold calculate_planets at hok
      rw [hval] at hok
      exact loop_ok_names calc_ut _ planet_ids res hok
  · rfl

/-- C7 counterexample: with a failing provider, the app.py profile
computation does not fail; it returns the fallback profile with
substituted default positions, signs and elements. -/
theorem claim_C7_counterexample :
    calculate_planetary_positions none
      = { sun_longitude := 0, moon_longitude := 0, sun_sign := "Aries",
          moon_sign := "Aries", sun_element := "Fire", moon_element := "Fire",
          sun_degree := 0, moon_degree := 0 } := rfl

/-- C7 witness: with an always-failing provider the API server fails
the whole request naming the sun, the first body of the loop. -/
theorem claim_C7_witness :
    calculate_planets julday_stub calc_ut_none ⟨2024, 2, 29, 0, 0, "東京都"⟩
      = Except.error ("sun" ++ "の計算に失敗しました") :=
  (claim_C7_amended.1 julday_stub calc_ut_none _ (by decide)).1 ("sun", 0) (by decide)

/-- C9 amended: in the API server an unknown region is rejected with
the invalid-prefecture error before any position is resolved (the
result does not depend on the provider); but in app.py, cited by the
claim, an unknown region is silently replaced by the Tokyo default
coordinate pair (35.6762, 139.6503). -/
theorem claim_C9_amended :
    (∀ (julday : ℤ → ℤ → ℤ → ℚ → ℚ) (calc_ut : ℚ → ℕ → Option ℚ)
        (inp : PlanetsInput),
        1900 ≤ inp.birth_year ∧ inp.birth_year ≤ 2100 →
        1 ≤ inp.birth_month ∧ inp.birth_month ≤ 12 →
        1 ≤ inp.birth_day ∧ inp.birth_day ≤ 31 →
        0 ≤ inp.birth_hour ∧ inp.birth_hour ≤ 23 →
        0 ≤ inp.birth_minute ∧ inp.birth_minute ≤ 59 →
        PREFECTURE_COORDINATES.lookup inp.birth_prefecture = none →
        calculate_planets julday calc_ut inp = Except.error "無効な都道府県です")
    ∧ (∀ prefecture : String, PREFECTURES.lookup prefecture = none →
        basic_diagnosis_coordinates prefecture = (35.6762, 139.6503)) := by
  constructor
  · intro julday calc_ut inp h1 h2 h3 h4 h5 hlook
    have hval : planets_validate inp = some "無効な都道府県です" := by
      unfold planets_validate
      rw [if_pos h1, if_pos h2, if_pos h3, if_pos h4, if_pos h5, hlook]
      simp
    unfold calculate_planets
    rw [hval]
  · intro prefecture h
    unfold basic_diagnosis_coordinates
    rw [h]
    rfl

/-- C9 counterexample: a region name absent from the app.py table is
not rejected; the lookup silently yields the Tokyo default
coordinates. -/
theorem claim_C9_counterexample :
    PREFECTURES.lookup "アトランティス" = none
    ∧ basic_diagnosis_coordinates "アトランティス" = (35.6762, 139.6503) :=
  ⟨by decide, rfl⟩

/-- C9 witness: the API-server rejection and the app.py fallback, both
at the unknown region name. -/
theorem claim_C9_witness :
    calculate_planets julday_stub calc_ut_none ⟨2024, 1, 1, 0, 0, "未知の県"⟩
      = Except.error "無効な都道府県です"
    ∧ basic_diagnosis_coordinates "未知の県" = (35.6762, 139.6503) :=
  ⟨claim_C9_amended.1 julday_stub calc_ut_none _ (by decide) (by decide) (by decide)
      (by decide) (by decide) (by decide),
   claim_C9_amended.2 "未知の県" (by decide)⟩

/-! ## Timeline lemmas for the 9-hour offset -/

lemma daysBeforeMonth_step (y m : ℤ) (h2 : 2 ≤ m) (h12 : m ≤ 12) :
    daysBeforeMonth y (m - 1) + daysInMonth y (m - 1) = daysBeforeMonth y m := by
  interval_cases m <;> simp [daysBeforeMonth, daysInMonth] <;> omega

lemma daysBeforeYear_step (y : ℤ) (_hy : 1900 ≤ y) :
    daysBeforeYear y = daysBeforeYear (y - 1) + 365 + leapBit (y - 1) := by
  unfold daysBeforeYear leapBit
  split_ifs with h
  · omega
  · omega

lemma totalMinutes_sub_nine (dt : DT) (hy : 1900 ≤ dt.year)
    (hv : datetime_valid dt) :
    totalMinutes (sub_nine_hours dt) = totalMinutes dt - 540 := by
  obtain ⟨y, m, d, hh, mi⟩ := dt
  unfold datetime_valid at hv
  dsimp only at hv hy
  obtain ⟨hv1, hv2, hv3, hv4, hv5, hv6, hv7, hv8, hv9, hv10⟩ := hv
  unfold sub_nine_hours
  dsimp only
  split_ifs with h1 h2 h3
  · unfold totalMinutes dayNumber
    dsimp only
    ring
  · unfold totalMinutes dayNumber
    dsimp only
    ring
  · have hd1 : d = 1 := by omega
    subst hd1
    have hstep := daysBeforeMonth_step y m (by omega) hv4
    unfold totalMinutes dayNumber
    dsimp only
    omega
  · have hd1 : d = 1 := by omega
    have hm1 : m = 1 := by omega
    subst hd1
    subst hm1
    have hy2 := daysBeforeYear_step y hy
    have h12 : daysBeforeMonth (y - 1) 12 = 334 + leapBit (y - 1) := by
      norm_num [daysBeforeMonth]
    have h1m : daysBeforeMonth y 1 = 0 := by norm_num [daysBeforeMonth]
    unfold totalMinutes dayNumber
    dsimp only
    omega

/-! ## Claim C8 -/

/-- C8 counterexample: app.py applies no 9-hour offset on any request:
the observer date fed to the provider for the civil datetime
2024-01-01 09:00 is that civil datetime itself (offset 0), which is
not 540 minutes earlier on the reference timeline as the claim
requires. -/
theorem claim_C8_counterexample :
    app_observer_date ⟨2024, 1, 1, 9, 0⟩ = (⟨2024, 1, 1, 9, 0⟩ : DT)
    ∧ totalMinutes (app_observer_date ⟨2024, 1, 1, 9, 0⟩)
        = totalMinutes (⟨2024, 1, 1, 9, 0⟩ : DT)
    ∧ totalMinutes (app_observer_date ⟨2024, 1, 1, 9, 0⟩)
        ≠ totalMinutes (⟨2024, 1, 1, 9, 0⟩ : DT) - 540 := by
  refine ⟨rfl, rfl, ?_⟩
  decide

/-- C8 amended: in the API server, for every valid birth input the
normalizer obtains the UTC datetime by subtracting the single fixed
9-hour offset from the civil datetime (on the reference timeline the
result is exactly 540 minutes earlier, whatever the date), and the
UTC datetime fed to the julian-day conversion is the same whatever
region the request carries; but app.py, cited by the claim, applies
no offset at all: the observer date handed to its provider is the
civil datetime unchanged, the same instant on the timeline. -/
theorem claim_C8_amended :
    (∀ inp : PlanetsInput,
      1900 ≤ inp.birth_year → inp.birth_year ≤ 2100 →
      datetime_valid (birth_datetime_jst inp) →
      totalMinutes (birth_datetime_utc inp)
          = totalMinutes (birth_datetime_jst inp) - 540
      ∧ ∀ region : String,
          birth_datetime_utc
            { birth_year := inp.birth_year, birth_month := inp.birth_month,
              birth_day := inp.birth_day, birth_hour := inp.birth_hour,
              birth_minute := inp.birth_minute, birth_prefecture := region }
            = birth_datetime_utc inp)
    ∧ (∀ dt : DT, app_observer_date dt = dt
        ∧ totalMinutes (app_observer_date dt) = totalMinutes dt) := by
  constructor
  · intro inp hy1 hy2 hv
    refine ⟨?_, fun region => rfl⟩
    unfold birth_datetime_utc
    exact totalMinutes_sub_nine (birth_datetime_jst inp) hy1 hv
  · exact fun dt => ⟨rfl, rfl⟩

/-- C8 witness: the API-server part applied to the new-year boundary
case 2024-01-01 00:00 JST, whose UTC instant is 540 minutes earlier
on the timeline (2023-12-31 15:00). -/
theorem claim_C8_witness :
    totalMinutes (birth_datetime_utc ⟨2024, 1, 1, 0, 0, "東京都"⟩)
      = totalMinutes (birth_datetime_jst ⟨2024, 1, 1, 0, 0, "東京都"⟩) - 540 :=
  (claim_C8_amended.1 ⟨2024, 1, 1, 0, 0, "東京都"⟩ (by decide) (by decide) (by decide)).1
